import Mathlib

/-
  Verification of the intake-gating pipeline and identity-protection scheme of
  the Diabetes-Prediction-System-Using-HE-MPC backend.

  Shallow embedding, translated from the Python sources:
    - backend/app.py                         (create_patient endpoint, gates, logging)
    - backend/patient_encryption_with_PSI.py (hash_text, encrypt_vector, update_patient_record)
    - backend/test_psi_encrypted.py          (hash-based PSI intersection)
    - backend/encrypt_and_upload.py          (hash-based PSI intersection)

  Modelling conventions:
    - hashlib.sha256(...).hexdigest() is embedded as a full executable SHA-256
      over byte lists (naturals < 256), with arithmetic mod 2^32.
    - The external black-box scorers (poisoning classifier, autoencoder
      reconstruction error, diabetes model), the TenSEAL BFV encryption call
      and the MongoDB availability/failure modes are oracle parameters; every
      branch the Python code takes on their outcomes is modelled explicitly.
    - Python exceptions are Except values; swallowed exceptions are branches
      that leave the state unchanged.
    - JSON numbers in submissions are modelled as integers (the claims only
      exercise integral and string-valued fields); probabilities, scores and
      thresholds are rationals.
    - Timestamps, input_hash and additional_info fields of log records are
      elided: no claim mentions them.
-/

set_option maxRecDepth 100000

namespace DiabetesHE

/-! ## SHA-256 (embedding of hashlib.sha256) -/

/-- Reduce modulo 2^32 (all SHA-256 word arithmetic is 32-bit). -/
def mod32 (n : Nat) : Nat := n % 4294967296

/-- Right-rotation of a 32-bit word. -/
def rotr (k n : Nat) : Nat := mod32 ((n >>> k) ||| (n <<< (32 - k)))

/-- Logical right shift. -/
def shr (k n : Nat) : Nat := n >>> k

/-- 32-bit bitwise complement. -/
def bnot32 (n : Nat) : Nat := 4294967295 ^^^ n

def chFn (e f g : Nat) : Nat := (e &&& f) ^^^ (bnot32 e &&& g)

def majFn (a b c : Nat) : Nat := (a &&& b) ^^^ (a &&& c) ^^^ (b &&& c)

def bigSigma0 (a : Nat) : Nat := rotr 2 a ^^^ rotr 13 a ^^^ rotr 22 a

def bigSigma1 (e : Nat) : Nat := rotr 6 e ^^^ rotr 11 e ^^^ rotr 25 e

def smallSigma0 (x : Nat) : Nat := rotr 7 x ^^^ rotr 18 x ^^^ shr 3 x

def smallSigma1 (x : Nat) : Nat := rotr 17 x ^^^ rotr 19 x ^^^ shr 10 x

/-- The 64 SHA-256 round constants (FIPS 180-4). -/
def kConst : List Nat :=
  [1116352408, 1899447441, 3049323471, 3921009573,
   961987163, 1508970993, 2453635748, 2870763221,
   3624381080, 310598401, 607225278, 1426881987,
   1925078388, 2162078206, 2614888103, 3248222580,
   3835390401, 4022224774, 264347078, 604807628,
   770255983, 1249150122, 1555081692, 1996064986,
   2554220882, 2821834349, 2952996808, 3210313671,
   3336571891, 3584528711, 113926993, 338241895,
   666307205, 773529912, 1294757372, 1396182291,
   1695183700, 1986661051, 2177026350, 2456956037,
   2730485921, 2820302411, 3259730800, 3345764771,
   3516065817, 3600352804, 4094571909, 275423344,
   430227734, 506948616, 659060556, 883997877,
   958139571, 1322822218, 1537002063, 1747873779,
   1955562222, 2024104815, 2227730452, 2361852424,
   2428436474, 2756734187, 3204031479, 3329325298]

/-- The eight 32-bit working registers of the compression function. -/
structure Hash8 where
  a : Nat
  b : Nat
  c : Nat
  d : Nat
  e : Nat
  f : Nat
  g : Nat
  h : Nat
deriving DecidableEq

/-- SHA-256 initial hash value (FIPS 180-4). -/
def h0 : Hash8 :=
  ⟨1779033703, 3144134277, 1013904242, 2773480762,
   1359893119, 2600822924, 528734635, 1541459225⟩

/-- One round of the SHA-256 compression function; the pair is (K-constant, schedule word). -/
def roundStep (st : Hash8) (kw : Nat × Nat) : Hash8 :=
  let t1 := mod32 (st.h + bigSigma1 st.e + chFn st.e st.f st.g + kw.1 + kw.2)
  let t2 := mod32 (bigSigma0 st.a + majFn st.a st.b st.c)
  ⟨mod32 (t1 + t2), st.a, st.b, st.c, mod32 (st.d + t1), st.e, st.f, st.g⟩

def addHash (x y : Hash8) : Hash8 :=
  ⟨mod32 (x.a + y.a), mod32 (x.b + y.b), mod32 (x.c + y.c), mod32 (x.d + y.d),
   mod32 (x.e + y.e), mod32 (x.f + y.f), mod32 (x.g + y.g), mod32 (x.h + y.h)⟩

/-- Append one extended message-schedule word. -/
def extendOnce (w : List Nat) : List Nat :=
  let n := w.length
  w ++ [mod32 (smallSigma1 (w.getD (n - 2) 0) + w.getD (n - 7) 0 +
               smallSigma0 (w.getD (n - 15) 0) + w.getD (n - 16) 0)]

def extendMany (w : List Nat) : Nat → List Nat
  | 0 => w
  | k + 1 => extendMany (extendOnce w) k

def word32 (b0 b1 b2 b3 : Nat) : Nat := b0 * 16777216 + b1 * 65536 + b2 * 256 + b3

/-- The 16 big-endian words of one 64-byte block. -/
def words16 (block : List Nat) : List Nat :=
  (List.range 16).map fun i =>
    word32 (block.getD (4 * i) 0) (block.getD (4 * i + 1) 0)
           (block.getD (4 * i + 2) 0) (block.getD (4 * i + 3) 0)

/-- Process one 64-byte block. -/
def compressBlock (st : Hash8) (block : List Nat) : Hash8 :=
  let w := extendMany (words16 block) 48
  addHash st ((kConst.zip w).foldl roundStep st)

/-- SHA-256 padding: 0x80, zeros, 64-bit big-endian bit length. -/
def padMsg (msg : List Nat) : List Nat :=
  let l := msg.length
  msg ++ [128] ++ List.replicate ((64 - ((l + 9) % 64)) % 64) 0 ++
    (List.range 8).map (fun i => ((8 * l) >>> (8 * (7 - i))) % 256)

/-- Split a byte list into 64-byte chunks (fuel-based structural recursion;
the fuel l.length always suffices since each step consumes at least one
byte). -/
def chunks64Aux : Nat → List Nat → List (List Nat)
  | 0, _ => []
  | _, [] => []
  | fuel + 1, x :: xs => (x :: xs).take 64 :: chunks64Aux fuel ((x :: xs).drop 64)

def chunks64 (l : List Nat) : List (List Nat) := chunks64Aux l.length l

/-- SHA-256 digest (32 bytes) of a byte list. -/
def sha256Bytes (msg : List Nat) : List Nat :=
  let st := (chunks64 (padMsg msg)).foldl compressBlock h0
  ([st.a, st.b, st.c, st.d, st.e, st.f, st.g, st.h].map
    (fun w => (List.range 4).map (fun i => (w >>> (8 * (3 - i))) % 256))).flatten

def hexDigitChar (n : Nat) : Char := if n < 10 then Char.ofNat (48 + n) else Char.ofNat (87 + n)

def byteToHex (b : Nat) : List Char := [hexDigitChar (b / 16), hexDigitChar (b % 16)]

def bytesToHex (bs : List Nat) : String := String.mk ((bs.map byteToHex).flatten)

/-- Standard UTF-8 encoding of one character (mirrors Python str.encode). -/
def utf8EncodeChar (c : Char) : List Nat :=
  let n := c.toNat
  if n < 128 then [n]
  else if n < 2048 then [192 + n / 64, 128 + n % 64]
  else if n < 65536 then [224 + n / 4096, 128 + (n / 64) % 64, 128 + n % 64]
  else [240 + n / 262144, 128 + (n / 4096) % 64, 128 + (n / 64) % 64, 128 + n % 64]

def utf8Bytes (s : String) : List Nat := (s.data.map utf8EncodeChar).flatten

/-- hashlib.sha256(s.encode()).hexdigest() -/
def sha256Hex (s : String) : String := bytesToHex (sha256Bytes (utf8Bytes s))

/-- int(s, 16): value of a hex string. -/
def hexVal (c : Char) : Nat :=
  if 97 ≤ c.toNat then c.toNat - 87 else if 65 ≤ c.toNat then c.toNat - 55 else c.toNat - 48

def hexToNat (s : String) : Nat := s.data.foldl (fun acc c => 16 * acc + hexVal c) 0

/-! ## Python value fragment

JSON values reaching the endpoint: strings, numbers (modelled as integers —
the claims only exercise integral numeric fields) and null. -/

inductive PyVal where
  | vstr (s : String)
  | vint (n : Int)
  | vnull
deriving DecidableEq

/-- Python str(v). -/
def pyStr : PyVal → String
  | .vstr s => s
  | .vint n => toString n
  | .vnull => "None"

/-- Python truthiness: empty string, 0 and None are falsy. -/
def pyTruthy : PyVal → Bool
  | .vstr s => s != ""
  | .vint n => n != 0
  | .vnull => false

def isDigitChar (c : Char) : Bool := 48 ≤ c.toNat && c.toNat ≤ 57

def digitsVal (cs : List Char) : Nat := cs.foldl (fun a c => 10 * a + (c.toNat - 48)) 0

/-- Python str.strip(): drop leading and trailing whitespace. -/
def pyStrip (s : String) : String :=
  String.mk (((s.data.dropWhile Char.isWhitespace).reverse.dropWhile Char.isWhitespace).reverse)

/-- Fragment of Python float(str): optional sign, decimal digits, optional
fractional part, surrounding whitespace stripped; anything else raises. -/
def parseFloatQ (s : String) : Option Rat :=
  let cs := (pyStrip s).data
  let sign : Int × List Char :=
    match cs with
    | '-' :: rest => (-1, rest)
    | '+' :: rest => (1, rest)
    | _ => (1, cs)
  let intPart := sign.2.takeWhile isDigitChar
  let rest := sign.2.dropWhile isDigitChar
  match rest with
  | [] => if intPart.isEmpty then none else some (mkRat (sign.1 * (digitsVal intPart : Int)) 1)
  | '.' :: frac =>
      if frac.all isDigitChar && !(intPart.isEmpty && frac.isEmpty) then
        some (mkRat (sign.1 * ((digitsVal intPart * 10 ^ frac.length + digitsVal frac : Nat) : Int))
                    (10 ^ frac.length))
      else none
  | _ => none

/-- Python float(v) on the modelled values; none means the coercion raises. -/
def pyFloat : PyVal → Option Rat
  | .vint n => some (n : Rat)
  | .vstr s => parseFloatQ s
  | .vnull => none

/-! ## Identity codec (patient_encryption_with_PSI.py) -/

/-- hash_text: SHA-256 hex digest of the UTF-8 encoding of str(text)
(str is the identity on the strings this is applied to). -/
def hash_text (text : String) : String := sha256Hex text

/-! ## Linkage engine (hash-based PSI)

test_psi_encrypted.py line 123 and encrypt_and_upload.py line 101 both compute
set(...).intersection(set(...)) over SHA-256 hex digests. -/

/-- Python set intersection over hashed-identifier sets. -/
def psiIntersect (a b : Finset String) : Finset String := a ∩ b

/-! ## Pipeline state (app.py) -/

/-- The categorical encoders of best_model_meta.json: each feature has either
a value-to-integer dict or an ordinal list (app.py lines 163-171). -/
inductive PyEncoder where
  | edict (entries : List (PyVal × PyVal))
  | elist (items : List PyVal)
deriving DecidableEq

/-- enc.get(val, 0) for a dict encoder; enc.index(val) with ValueError
caught to 0 for a list encoder. -/
def applyEncoder : PyEncoder → PyVal → PyVal
  | .edict m, v => ((m.lookup v).getD (.vint 0))
  | .elist l, v =>
      match l.findIdx? (fun x => x == v) with
      | some i => .vint i
      | none => .vint 0

/-- The parsed JSON body: an association of field names to values. -/
abbrev DataMap := List (String × PyVal)

/-- data.get(k): first binding of k, if any. -/
def dget (d : DataMap) (k : String) : Option PyVal := d.lookup k

/-- Process-wide configuration loaded at start (model metadata, scalers,
thresholds); scalers and predicate shapes are abstract read-only functions. -/
structure Config where
  featureOrder : List String
  encoders : List (String × PyEncoder)
  poisoningScaler : Option (List Rat → List Rat)
  poisoningThreshold : Rat
  predScaler : Option (List Rat → List Rat)
  poisonHasProba : Bool
  modelHasProba : Bool

/-- Oracles for the external collaborators: black-box scorers, the TenSEAL
BFV encryption call, context loading, and store availability. An Except
error models a raised exception; bfvEncrypt none models the exception that
encrypt_vector catches and converts to None. -/
structure Oracles where
  poisonProba : List Rat → Except String Rat
  poisonPredict : List Rat → Except String Rat
  detectAttack : List Rat → Except String (Bool × Rat)
  modelProba : List Rat → Except String Rat
  modelPredict : List Rat → Except String Int
  bfvEncrypt : Nat → Option Nat
  loadCtx : Except String Unit
  dbAvail : Bool
  logInsertOk : Bool
  summaryInsertOk : Bool

/-- encrypt_vector(context, value): hash str(value), reduce the digest value
modulo the fixed plain modulus 65537, encrypt that slot (the TenSEAL call is
the oracle; any exception gives None). -/
def encrypt_vector (orc : Oracles) (value : PyVal) : Option Nat :=
  orc.bfvEncrypt (hexToNat (hash_text (pyStr value)) % 65537)

/-- One security_logs document (timestamp/input_hash/additional_info elided). -/
structure LogEntry where
  eventType : String
  mse : Rat
  isAttack : Bool
deriving DecidableEq

/-- One document of the "patients" collection (encrypted identity record). -/
structure PatientDoc where
  nicHashed : String
  nicEnc : Nat
  nameEnc : Nat
  addressEnc : Nat
  gender : PyVal
  age : PyVal
  hypertension : PyVal
  heartDisease : PyVal
  bmi : PyVal
  hba1cLevel : PyVal
  bloodGlucoseLevel : PyVal
  diabetes : Int
deriving DecidableEq

/-- One document of the "patients_plain" collection (plaintext summary;
created_at elided). NIC_Hashed is Optional: app.py line 447 stores None
when record.get("NIC") is falsy. -/
structure SummaryDoc where
  nicHashed : Option String
  name : PyVal
  diabetes : Int
deriving DecidableEq

/-- The persistence store: the three collections the pipeline touches. -/
structure DB where
  patients : List PatientDoc
  patientsPlain : List SummaryDoc
  securityLogs : List LogEntry
deriving DecidableEq

/-- log_security_event: appends one security_logs document; if the database
is unavailable it returns silently, and an insert exception is swallowed
(app.py lines 114-143), so on failure the state is unchanged. -/
def log_security_event (orc : Oracles) (db : DB) (eventType : String)
    (mse : Rat) (isAtk : Bool) : DB :=
  if orc.dbAvail && orc.logInsertOk then
    { db with securityLogs := db.securityLogs ++ [⟨eventType, mse, isAtk⟩] }
  else db

/-- The record dict assembled at app.py lines 403-415. -/
structure PatientRecord where
  nic : PyVal
  name : PyVal
  address : PyVal
  gender : PyVal
  age : PyVal
  hypertension : PyVal
  heartDisease : PyVal
  bmi : PyVal
  hba1cLevel : PyVal
  bloodGlucoseLevel : PyVal
  diabetes : Int
deriving DecidableEq

/-- find_one_and_update on NIC_Hashed with upsert=True: replace the first
document with the matching key, else append. -/
def upsertByNicHash : List PatientDoc → PatientDoc → List PatientDoc
  | [], doc => [doc]
  | p :: ps, doc =>
      if p.nicHashed == doc.nicHashed then doc :: ps
      else p :: upsertByNicHash ps doc

/-- update_patient_record (patient_encryption_with_PSI.py lines 34-78):
load the context (a raised exception propagates), hash the NIC, encrypt the
three identity fields; if any encryption returned None, print and return
WITHOUT raising and without writing; otherwise upsert the full document by
NIC_Hashed. -/
def update_patient_record (orc : Oracles) (record : PatientRecord) (db : DB) :
    Except String DB :=
  match orc.loadCtx with
  | .error e => .error e
  | .ok _ =>
    let nicPlain := pyStr record.nic
    let nicHashed := hash_text nicPlain
    let eNic := encrypt_vector orc (.vstr nicPlain)
    let eName := encrypt_vector orc record.name
    let eAddr := encrypt_vector orc record.address
    match eNic, eName, eAddr with
    | some cn, some cm, some ca =>
        let doc : PatientDoc :=
          ⟨nicHashed, cn, cm, ca, record.gender, record.age, record.hypertension,
           record.heartDisease, record.bmi, record.hba1cLevel,
           record.bloodGlucoseLevel, record.diabetes⟩
        .ok { db with patients := upsertByNicHash db.patients doc }
    | _, _, _ => .ok db

/-! ## The intake endpoint create_patient (app.py lines 284-477) -/

/-- _coerce_feature (app.py lines 148-154): None raises; otherwise float(val)
raises on non-coercible values. -/
def coerce_feature (name : String) (v : PyVal) : Except String Rat :=
  match v with
  | .vnull => .error ("Missing value for " ++ name)
  | v =>
      match pyFloat v with
      | some q => .ok q
      | none => .error ("Invalid value for " ++ name)

/-- The feature vector of _run_poisoning_check (app.py lines 159-175):
missing columns default to 0, categorical encoders apply, and a value that
float() rejects silently becomes 0.0 — this mapping never raises. -/
def poisonFeatures (cfg : Config) (d : DataMap) : List Rat :=
  cfg.featureOrder.map fun col =>
    let v := (dget d col).getD (.vint 0)
    let v :=
      match cfg.encoders.lookup col with
      | some enc => applyEncoder enc v
      | none => v
    (pyFloat v).getD 0

/-- scaler.transform when a scaler is stored, identity otherwise. -/
def applyScaler (sc : Option (List Rat → List Rat)) (x : List Rat) : List Rat :=
  match sc with
  | some f => f x
  | none => x

/-- _run_poisoning_check (app.py lines 156-186): build features, scale,
score, compare strictly against the threshold; any internal exception is
re-raised as RuntimeError with a "Poisoning check failed: " message. -/
def run_poisoning_check (cfg : Config) (orc : Oracles) (d : DataMap) :
    Except String Bool :=
  let x := applyScaler cfg.poisoningScaler (poisonFeatures cfg d)
  match (if cfg.poisonHasProba then orc.poisonProba x else orc.poisonPredict x) with
  | .ok p => .ok (decide (cfg.poisoningThreshold < p))
  | .error e => .error ("Poisoning check failed: " ++ e)

/-- The extraction-check input vector (app.py line 339):
[_coerce_feature(f, data[f]) for f in feature_order]. data[f] raises
KeyError on an absent column; _coerce_feature raises on a non-coercible
value; the first exception propagates (this comprehension is NOT inside a
stage try-block). -/
def buildExtractionInput (cfg : Config) (d : DataMap) : Except String (List Rat) :=
  go d cfg.featureOrder
where
  go (d : DataMap) : List String → Except String (List Rat)
    | [] => .ok []
    | f :: fs =>
        match dget d f with
        | none => .error ("KeyError: " ++ f)
        | some v =>
            match coerce_feature f v with
            | .error e => .error e
            | .ok q =>
                match go d fs with
                | .error e => .error e
                | .ok qs => .ok (q :: qs)

/-- The required fields of app.py lines 300-303. -/
def requiredFields : List String :=
  ["NIC", "Name", "gender", "age", "hypertension",
   "heart_disease", "bmi", "HbA1c_level", "blood_glucose_level"]

/-- app.py line 304: fields absent from the body or whose str().strip() is
empty. -/
def missingFields (d : DataMap) : List String :=
  requiredFields.filter fun f =>
    match dget d f with
    | none => true
    | some v => pyStrip (pyStr v) == ""

/-- The record dict of app.py lines 403-415 (Address defaults to ""). -/
def buildRecord (d : DataMap) (pred : Int) : PatientRecord :=
  ⟨(dget d "NIC").getD .vnull, (dget d "Name").getD .vnull,
   (dget d "Address").getD (.vstr ""),
   (dget d "gender").getD .vnull, (dget d "age").getD .vnull,
   (dget d "hypertension").getD .vnull, (dget d "heart_disease").getD .vnull,
   (dget d "bmi").getD .vnull, (dget d "HbA1c_level").getD .vnull,
   (dget d "blood_glucose_level").getD .vnull, pred⟩

/-- The optional plaintext summary write (app.py lines 443-455): only when
the database connection is truthy; NIC_Hashed is the inline
hashlib.sha256(str(record["NIC"]).encode()).hexdigest() when
record.get("NIC") is truthy, else None; an insert exception is swallowed. -/
def writeSummary (orc : Oracles) (db : DB) (record : PatientRecord) (pred : Int) : DB :=
  if orc.dbAvail then
    if orc.summaryInsertOk then
      let nicHash : Option String :=
        if pyTruthy record.nic then some (sha256Hex (pyStr record.nic)) else none
      { db with patientsPlain := db.patientsPlain ++ [⟨nicHash, record.name, pred⟩] }
    else db
  else db

/-- The pipeline stages that create_patient can attempt, in source order. -/
inductive Stage where
  | poisoning
  | extraction
  | prediction
  | persistence
deriving DecidableEq

/-- The JSON response: HTTP status plus the body fields the endpoint emits.
The MSE interpolated into the extraction alert string is carried in the
mseField component rather than re-formatted into the text. -/
structure Resp where
  status : Nat
  ok : Bool
  error : Option String
  alert : Option String
  mseField : Option Rat
  prediction : Option String
  message : Option String
deriving DecidableEq

def errResp (status : Nat) (msg : String) : Resp :=
  ⟨status, false, some msg, none, none, none, none⟩

/-- Everything one call to create_patient produces: the HTTP response, the
final store state, and the list of stages actually attempted (in order). -/
structure Outcome where
  resp : Resp
  db : DB
  attempts : List Stage
deriving DecidableEq

/-- Step 4 of create_patient (app.py lines 402-461), entered with the
predicted label: build the record dict, persist it via
update_patient_record (a raised exception is logged as
record_creation_error and becomes a 500), on success log record_created,
attempt the optional plaintext summary, and return 201. -/
def persistStage (orc : Oracles) (d : DataMap) (db3 : DB) (pred : Int) : Outcome :=
  let record := buildRecord d pred
  match update_patient_record orc record db3 with
  | .error _ =>
      let db4 := log_security_event orc db3 "record_creation_error" 0 false
      ⟨errResp 500 "Failed to save record", db4,
       [.poisoning, .extraction, .prediction, .persistence]⟩
  | .ok db4 =>
      let db5 := log_security_event orc db4 "record_created" 0 false
      let db6 := writeSummary orc db5 record pred
      ⟨⟨201, true, none, none, none,
        some (if pred == 1 then "Diabetic" else "Non-Diabetic"),
        some "Record saved successfully"⟩, db6,
       [.poisoning, .extraction, .prediction, .persistence]⟩

/-- Step 3 of create_patient (app.py lines 371-400): scale with the stored
scaler if present, take predict_proba with the ≥ 0.5 cut when available and
predict otherwise; a model exception is logged as prediction_error and
becomes a 500, a success is logged and continues to persistence. -/
def predictionStage (cfg : Config) (orc : Oracles) (d : DataMap) (db2 : DB)
    (mse : Rat) (x : List Rat) : Outcome :=
  let xs := applyScaler cfg.predScaler x
  if cfg.modelHasProba then
    match orc.modelProba xs with
    | .error _ =>
        ⟨errResp 500 "Prediction failed",
         log_security_event orc db2 "prediction_error" 0 false,
         [.poisoning, .extraction, .prediction]⟩
    | .ok p =>
        persistStage orc d (log_security_event orc db2 "prediction_success" mse false)
          (if mkRat 1 2 ≤ p then 1 else 0)
  else
    match orc.modelPredict xs with
    | .error _ =>
        ⟨errResp 500 "Prediction failed",
         log_security_event orc db2 "prediction_error" 0 false,
         [.poisoning, .extraction, .prediction]⟩
    | .ok pred =>
        persistStage orc d (log_security_event orc db2 "prediction_success" mse false) pred

/-- create_patient (app.py lines 284-477), one call on a parsed body (none
models an invalid JSON body). Mirrors the control flow: validation, the
poisoning stage (logged, fail-closed), the extraction input build (whose
exception falls through to the outer handler), the extraction stage, then
predictionStage and persistStage. -/
def create_patient (cfg : Config) (orc : Oracles) (data : Option DataMap) (db : DB) :
    Outcome :=
  match data with
  | none => ⟨errResp 400 "Invalid or missing JSON body", db, []⟩
  | some d =>
    if missingFields d ≠ [] then
      ⟨errResp 400 ("Missing fields: " ++ String.intercalate ", " (missingFields d)), db, []⟩
    else
      match run_poisoning_check cfg orc d with
      | .error e =>
          let db1 := log_security_event orc db "poisoning_check_error" 0 true
          ⟨errResp 500 ("Poisoning check failed: " ++ e), db1, [.poisoning]⟩
      | .ok poisoningFlag =>
          let db1 := log_security_event orc db "poisoning_check" 0 poisoningFlag
          if poisoningFlag then
            ⟨⟨403, false, some "Model poisoning detected",
              some "Suspicious data patterns detected. This submission has been blocked for security reasons.",
              none, none, none⟩, db1, [.poisoning]⟩
          else
            match buildExtractionInput cfg d with
            | .error _ =>
                let db2 := log_security_event orc db1 "system_error" 0 false
                ⟨errResp 500 "Internal server error", db2, [.poisoning]⟩
            | .ok x =>
                match orc.detectAttack x with
                | .error _ =>
                    let db2 := log_security_event orc db1 "extraction_check_error" 0 true
                    ⟨errResp 500 "Extraction check failed", db2, [.poisoning, .extraction]⟩
                | .ok (isAtk, mse) =>
                    let db2 := log_security_event orc db1 "extraction_check" mse isAtk
                    if isAtk then
                      ⟨⟨403, false, some "Model extraction attack detected",
                        some "Potential model extraction attempt detected. Access denied.",
                        some mse, none, none⟩, db2, [.poisoning, .extraction]⟩
                    else
                      predictionStage cfg orc d db2 mse x

/-! ## Concrete fixtures used by witnesses and counterexamples -/

/-- A configuration with the model's seven-feature order, one categorical
encoder, no stored scalers, the default 0.5 poisoning threshold, and
predict_proba available on both models. -/
def cfgW : Config where
  featureOrder := ["gender", "age", "hypertension", "heart_disease",
                   "bmi", "HbA1c_level", "blood_glucose_level"]
  encoders := [("gender", .edict [(.vstr "Female", .vint 0), (.vstr "Male", .vint 1)])]
  poisoningScaler := none
  poisoningThreshold := mkRat 1 2
  predScaler := none
  poisonHasProba := true
  modelHasProba := true

/-- A well-formed submission. -/
def dW : DataMap :=
  [("NIC", .vstr "199012345V"), ("Name", .vstr "Alice"), ("gender", .vint 1),
   ("age", .vint 45), ("hypertension", .vint 0), ("heart_disease", .vint 0),
   ("bmi", .vint 27), ("HbA1c_level", .vint 6), ("blood_glucose_level", .vint 140)]

/-- Oracles for a fully successful run: both gates pass, prediction
probability 0.73, encryption and persistence succeed, store available. -/
def orcW : Oracles where
  poisonProba := fun _ => .ok 0
  poisonPredict := fun _ => .ok 0
  detectAttack := fun _ => .ok (false, mkRat 3 100)
  modelProba := fun _ => .ok (mkRat 73 100)
  modelPredict := fun _ => .ok 0
  bfvEncrypt := fun n => some n
  loadCtx := .ok ()
  dbAvail := true
  logInsertOk := true
  summaryInsertOk := true

/-- The empty store. -/
def db0 : DB := ⟨[], [], []⟩

/-- orcW with a poisoning probability above the threshold (gate blocks). -/
def orcPoisonHigh : Oracles := { orcW with poisonProba := fun _ => .ok 1 }

/-- orcW with the poisoning model raising internally. -/
def orcPoisonErr : Oracles := { orcW with poisonProba := fun _ => .error "boom" }

/-- orcW with the extraction scorer raising internally. -/
def orcExtractErr : Oracles := { orcW with detectAttack := fun _ => .error "boom" }

/-- orcW with the TenSEAL encryption call failing (encrypt_vector → None). -/
def orcEncFail : Oracles := { orcW with bfvEncrypt := fun _ => none }

/-- dW with a medical feature value float() rejects. -/
def dBadBmi : DataMap :=
  [("NIC", .vstr "199012345V"), ("Name", .vstr "Alice"), ("gender", .vint 1),
   ("age", .vint 45), ("hypertension", .vint 0), ("heart_disease", .vint 0),
   ("bmi", .vstr "abc"), ("HbA1c_level", .vint 6), ("blood_glucose_level", .vint 140)]

/-- dW with the numeric NIC 0: present, validates (str(0).strip() is "0"),
but falsy in Python. -/
def dNicZero : DataMap :=
  [("NIC", .vint 0), ("Name", .vstr "Alice"), ("gender", .vint 1),
   ("age", .vint 45), ("hypertension", .vint 0), ("heart_disease", .vint 0),
   ("bmi", .vint 27), ("HbA1c_level", .vint 6), ("blood_glucose_level", .vint 140)]

/-! ## Theorems -/

/-- C6: the identity codec computes hash_digest as the SHA-256 hex digest of
the UTF-8 encoding of str(v); it is a pure function of str(v), so repeated
calls with the same value give an identical digest (the "abc" conjunct pins
the embedded SHA-256 to the standard FIPS 180-4 test vector); and
encrypt_vector passes exactly this digest's value reduced modulo the fixed
public plain modulus 65537 as the plaintext slot of the BFV encryption. -/
theorem c6_hash_digest_and_ciphertext :
    (∀ v : PyVal, hash_text (pyStr v) = bytesToHex (sha256Bytes (utf8Bytes (pyStr v)))) ∧
    (∀ v w : PyVal, pyStr v = pyStr w → hash_text (pyStr v) = hash_text (pyStr w)) ∧
    hash_text "abc" = "ba7816bf8f01cfea414140de5dae2223b00361a396177a9cb410ff61f20015ad" ∧
    (∀ (orc : Oracles) (v : PyVal),
      encrypt_vector orc v = orc.bfvEncrypt (hexToNat (hash_text (pyStr v)) % 65537) ∧
      hexToNat (hash_text (pyStr v)) % 65537 < 65537) := by
  refine ⟨fun v => rfl, fun v w h => by rw [h], by decide,
    fun orc v => ⟨rfl, Nat.mod_lt _ (by decide)⟩⟩

/-- Witness for C6: the determinism clause applied at the concrete NIC value
"199012345V", whose digest evaluates to the concrete SHA-256 digest. -/
theorem c6_witness :
    pyStr (PyVal.vstr "199012345V") = pyStr (PyVal.vstr "199012345V") ∧
    hash_text (pyStr (PyVal.vstr "199012345V")) = hash_text (pyStr (PyVal.vstr "199012345V")) ∧
    hash_text (pyStr (PyVal.vstr "199012345V")) =
      "9c8513b324846bc589ba743818c8c7d15c0e4be1eb00faaec4db213105215c06" :=
  ⟨rfl, c6_hash_digest_and_ciphertext.2.1 (PyVal.vstr "199012345V") (PyVal.vstr "199012345V") rfl,
   by decide⟩

/-- C7: the linkage engine's intersection over hashed-identifier sets is
plain set intersection: commutative, idempotent, and on the spec scenario
with four pairwise-distinct hashes it returns exactly the two common ones. -/
theorem c7_psi_intersection :
    (∀ A B : Finset String, psiIntersect A B = psiIntersect B A) ∧
    (∀ A : Finset String, psiIntersect A A = A) ∧
    (∀ h1 h2 h3 h4 : String, h1 ≠ h2 → h1 ≠ h3 → h1 ≠ h4 → h4 ≠ h2 → h4 ≠ h3 →
      psiIntersect {h1, h2, h3} {h2, h3, h4} = {h2, h3}) := by
  refine ⟨fun A B => Finset.inter_comm A B, fun A => Finset.inter_self A, ?_⟩
  intro h1 h2 h3 h4 h12 h13 h14 h42 h43
  ext x
  simp only [psiIntersect, Finset.mem_inter, Finset.mem_insert, Finset.mem_singleton]
  constructor
  · rintro ⟨hA, hB⟩
    rcases hA with rfl | rfl | rfl
    · rcases hB with h | h | h
      · exact absurd h h12
      · exact absurd h h13
      · exact absurd h h14
    · exact Or.inl rfl
    · exact Or.inr rfl
  · rintro (rfl | rfl)
    · exact ⟨Or.inr (Or.inl rfl), Or.inl rfl⟩
    · exact ⟨Or.inr (Or.inr rfl), Or.inr (Or.inl rfl)⟩

/-- Witness for C7: the scenario clause applied at four concrete distinct
hash strings. -/
theorem c7_witness :
    ("h1" : String) ≠ "h2" ∧
    psiIntersect {"h1", "h2", "h3"} {"h2", "h3", "h4"} = {"h2", "h3"} :=
  ⟨by decide, c7_psi_intersection.2.2 "h1" "h2" "h3" "h4"
    (by decide) (by decide) (by decide) (by decide) (by decide)⟩

/-- Counterexample to C2: with the TenSEAL encryption call failing for every
field (encrypt_vector returns None), update_patient_record stores nothing
but returns normally, so the endpoint continues with HTTP 201 and writes the
plaintext summary: a summary exists (length 1) with no encrypted record —
exactly what the claim says can never happen. -/
theorem c2_counterexample :
    (create_patient cfgW orcEncFail (some dW) db0).db.patients = [] ∧
    (create_patient cfgW orcEncFail (some dW) db0).db.patientsPlain.length = 1 ∧
    (create_patient cfgW orcEncFail (some dW) db0).resp.status = 201 := by decide

/-- Counterexample to C3: a submission whose bmi is the non-coercible string
"abc" is NOT rejected with 400 before the gates: the poisoning gate runs
(attempts = [poisoning]) and the coercion error surfaces as HTTP 500
"Internal server error" from the outer handler. -/
theorem c3_counterexample :
    (create_patient cfgW orcW (some dBadBmi) db0).resp.status = 500 ∧
    (create_patient cfgW orcW (some dBadBmi) db0).resp.error = some "Internal server error" ∧
    (create_patient cfgW orcW (some dBadBmi) db0).attempts = [Stage.poisoning] := by decide

/-- Counterexample to C4: submitting the identical record twice leaves one
encrypted patient document (the upsert works) but TWO plaintext summary
documents, because app.py line 448 uses insert_one, not an upsert. -/
theorem c4_counterexample :
    (create_patient cfgW orcW (some dW)
        (create_patient cfgW orcW (some dW) db0).db).db.patients.length = 1 ∧
    (create_patient cfgW orcW (some dW)
        (create_patient cfgW orcW (some dW) db0).db).db.patientsPlain.length = 2 := by decide

/-- Counterexample to C5: an internal exception with message "boom" in the
poisoning stage yields HTTP 500 whose body embeds the exception detail
("Poisoning check failed: Poisoning check failed: boom"), not a generic
internal-error message. -/
theorem c5_counterexample :
    (create_patient cfgW orcPoisonErr (some dW) db0).resp.status = 500 ∧
    (create_patient cfgW orcPoisonErr (some dW) db0).resp.error =
      some "Poisoning check failed: Poisoning check failed: boom" ∧
    (create_patient cfgW orcPoisonErr (some dW) db0).resp.error ≠
      some "Internal server error" := by decide

/-- Counterexample to C10: a successful submission with the numeric NIC 0
(present, validates, Python-falsy) stores a plaintext summary keyed None
while the encrypted record is keyed by the digest of str(0) — the two
NIC_Hashed keys differ. -/
theorem c10_counterexample :
    (create_patient cfgW orcW (some dNicZero) db0).resp.status = 201 ∧
    (create_patient cfgW orcW (some dNicZero) db0).db.patientsPlain.map
      SummaryDoc.nicHashed = [none] ∧
    (create_patient cfgW orcW (some dNicZero) db0).db.patients.map
      PatientDoc.nicHashed = [hash_text (pyStr (PyVal.vint 0))] ∧
    (none : Option String) ≠ some (hash_text (pyStr (PyVal.vint 0))) := by decide

/-- log_security_event only appends to security_logs; the patient
collections are untouched. -/
theorem log_security_event_collections (orc : Oracles) (db : DB) (t : String)
    (m : Rat) (b : Bool) :
    (log_security_event orc db t m b).patients = db.patients ∧
    (log_security_event orc db t m b).patientsPlain = db.patientsPlain := by
  unfold log_security_event
  split <;> exact ⟨rfl, rfl⟩

/-- persistStage always reports all four stages attempted. -/
theorem persistStage_attempts (orc : Oracles) (d : DataMap) (db3 : DB) (pred : Int) :
    (persistStage orc d db3 pred).attempts =
      [Stage.poisoning, Stage.extraction, Stage.prediction, Stage.persistence] := by
  cases h : update_patient_record orc (buildRecord d pred) db3 <;>
    simp [persistStage, h]

/-- predictionStage reports either three attempted stages (prediction
raised) or all four (persistence entered). -/
theorem predictionStage_attempts (cfg : Config) (orc : Oracles) (d : DataMap)
    (db2 : DB) (mse : Rat) (x : List Rat) :
    (predictionStage cfg orc d db2 mse x).attempts =
      [Stage.poisoning, Stage.extraction, Stage.prediction] ∨
    (predictionStage cfg orc d db2 mse x).attempts =
      [Stage.poisoning, Stage.extraction, Stage.prediction, Stage.persistence] := by
  by_cases hm : cfg.modelHasProba = true
  · cases hp : orc.modelProba (applyScaler cfg.predScaler x) <;>
      simp [predictionStage, hm, hp, persistStage_attempts]
  · cases hp : orc.modelPredict (applyScaler cfg.predScaler x) <;>
      simp [predictionStage, hm, hp, persistStage_attempts]

/-- The attempts of predictionStage, phrased as the five-way disjunction of
the gate-order invariant so it closes that goal by unification. -/
theorem predictionStage_attempts5 (cfg : Config) (orc : Oracles) (d : DataMap)
    (db2 : DB) (mse : Rat) (x : List Rat) :
    (predictionStage cfg orc d db2 mse x).attempts = [] ∨
    (predictionStage cfg orc d db2 mse x).attempts = [Stage.poisoning] ∨
    (predictionStage cfg orc d db2 mse x).attempts = [Stage.poisoning, Stage.extraction] ∨
    (predictionStage cfg orc d db2 mse x).attempts =
      [Stage.poisoning, Stage.extraction, Stage.prediction] ∨
    (predictionStage cfg orc d db2 mse x).attempts =
      [Stage.poisoning, Stage.extraction, Stage.prediction, Stage.persistence] := by
  rcases predictionStage_attempts cfg orc d db2 mse x with h | h
  · exact Or.inr (Or.inr (Or.inr (Or.inl h)))
  · exact Or.inr (Or.inr (Or.inr (Or.inr h)))

/-- C1: for every submission, the stages attempted by create_patient are an
initial segment of poisoning, extraction, prediction, persistence — so the
poisoning check always comes strictly before the extraction check, which
comes strictly before prediction; and when the poisoning gate blocks, only
the poisoning stage was attempted, the call returns 403 immediately, and
neither patient collection is touched. -/
theorem c1_gate_order_and_short_circuit (cfg : Config) (orc : Oracles)
    (data : Option DataMap) (db : DB) :
    ((create_patient cfg orc data db).attempts = [] ∨
     (create_patient cfg orc data db).attempts = [Stage.poisoning] ∨
     (create_patient cfg orc data db).attempts = [Stage.poisoning, Stage.extraction] ∨
     (create_patient cfg orc data db).attempts =
       [Stage.poisoning, Stage.extraction, Stage.prediction] ∨
     (create_patient cfg orc data db).attempts =
       [Stage.poisoning, Stage.extraction, Stage.prediction, Stage.persistence]) ∧
    (∀ d, data = some d → missingFields d = [] →
      run_poisoning_check cfg orc d = .ok true →
      (create_patient cfg orc data db).attempts = [Stage.poisoning] ∧
      (create_patient cfg orc data db).resp.status = 403 ∧
      (create_patient cfg orc data db).db.patients = db.patients ∧
      (create_patient cfg orc data db).db.patientsPlain = db.patientsPlain) := by
  constructor
  · unfold create_patient
    rcases data with _ | d
    · simp
    · repeat' split
      all_goals
        first
        | exact predictionStage_attempts5 _ _ _ _ _ _
        | simp
  · rintro d rfl hmiss hpc
    unfold create_patient
    simp only [hmiss, hpc]
    refine ⟨by simp, by simp, ?_, ?_⟩ <;>
      simp [log_security_event_collections]

/-- Witness for C1: the short-circuit clause applied at a concrete blocked
submission (poisoning probability 1 against threshold 0.5). -/
theorem c1_witness :
    missingFields dW = [] ∧
    run_poisoning_check cfgW orcPoisonHigh dW = .ok true ∧
    ((create_patient cfgW orcPoisonHigh (some dW) db0).attempts = [Stage.poisoning] ∧
     (create_patient cfgW orcPoisonHigh (some dW) db0).resp.status = 403 ∧
     (create_patient cfgW orcPoisonHigh (some dW) db0).db.patients = db0.patients ∧
     (create_patient cfgW orcPoisonHigh (some dW) db0).db.patientsPlain = db0.patientsPlain) :=
  ⟨by decide, rfl,
   (c1_gate_order_and_short_circuit cfgW orcPoisonHigh (some dW) db0).2 dW rfl
     (by decide) rfl⟩

/-! ## Audit-trail counting (C8) -/

/-- The security_logs event types each stage can emit (exactly one per
attempt: the success type or the error type). -/
def stageEventTypes : Stage → List String
  | .poisoning => ["poisoning_check", "poisoning_check_error"]
  | .extraction => ["extraction_check", "extraction_check_error"]
  | .prediction => ["prediction_success", "prediction_error"]
  | .persistence => ["record_created", "record_creation_error"]

/-- Number of audit entries belonging to a stage. -/
def stageLogCount (logs : List LogEntry) (s : Stage) : Nat :=
  (logs.filter fun e => (stageEventTypes s).contains e.eventType).length

theorem stageLogCount_append (l1 l2 : List LogEntry) (s : Stage) :
    stageLogCount (l1 ++ l2) s = stageLogCount l1 s + stageLogCount l2 s := by
  simp [stageLogCount, List.filter_append]

/-- With the store available and the insert succeeding, log_security_event
appends exactly its one entry. -/
theorem log_security_event_on (orc : Oracles) (db : DB) (t : String) (m : Rat)
    (b : Bool) (hdb : orc.dbAvail = true) (hlog : orc.logInsertOk = true) :
    log_security_event orc db t m b =
      { db with securityLogs := db.securityLogs ++ [⟨t, m, b⟩] } := by
  simp [log_security_event, hdb, hlog]

/-- update_patient_record never touches security_logs or the plaintext
summary collection. -/
theorem update_patient_record_state (orc : Oracles) (record : PatientRecord)
    (db db' : DB) (h : update_patient_record orc record db = .ok db') :
    db'.securityLogs = db.securityLogs ∧ db'.patientsPlain = db.patientsPlain := by
  simp only [update_patient_record] at h
  rcases hc : orc.loadCtx with e | u
  · simp only [hc] at h
    exact Except.noConfusion h
  · simp only [hc] at h
    rcases h1 : encrypt_vector orc (.vstr (pyStr record.nic)) with _ | cn
    · simp only [h1] at h
      injection h with h
      subst h
      exact ⟨rfl, rfl⟩
    · simp only [h1] at h
      rcases h2 : encrypt_vector orc record.name with _ | cm
      · simp only [h2] at h
        injection h with h
        subst h
        exact ⟨rfl, rfl⟩
      · simp only [h2] at h
        rcases h3 : encrypt_vector orc record.address with _ | ca
        · simp only [h3] at h
          injection h with h
          subst h
          exact ⟨rfl, rfl⟩
        · simp only [h3] at h
          injection h with h
          subst h
          exact ⟨rfl, rfl⟩

/-- writeSummary never touches security_logs or the encrypted records. -/
theorem writeSummary_state (orc : Oracles) (db : DB) (record : PatientRecord)
    (pred : Int) :
    (writeSummary orc db record pred).securityLogs = db.securityLogs ∧
    (writeSummary orc db record pred).patients = db.patients := by
  unfold writeSummary
  split
  · split
    · exact ⟨rfl, rfl⟩
    · exact ⟨rfl, rfl⟩
  · exact ⟨rfl, rfl⟩

/-- Audit accounting of persistStage: exactly one persistence entry is
appended whether update_patient_record succeeds or raises. -/
theorem persistStage_logs (orc : Oracles) (d : DataMap) (db3 : DB) (pred : Int)
    (hdb : orc.dbAvail = true) (hlog : orc.logInsertOk = true) (s : Stage) :
    stageLogCount (persistStage orc d db3 pred).db.securityLogs s =
      stageLogCount db3.securityLogs s + (if s = Stage.persistence then 1 else 0) := by
  cases h : update_patient_record orc (buildRecord d pred) db3 with
  | error e =>
      have hout : (persistStage orc d db3 pred).db.securityLogs =
          db3.securityLogs ++ [⟨"record_creation_error", 0, false⟩] := by
        simp [persistStage, h, log_security_event_on, hdb, hlog]
      rw [hout, stageLogCount_append]
      cases s <;> simp [stageLogCount, stageEventTypes]
  | ok db4 =>
      have h4 := (update_patient_record_state orc (buildRecord d pred) db3 db4 h).1
      have hout : (persistStage orc d db3 pred).db.securityLogs =
          db3.securityLogs ++ [⟨"record_created", 0, false⟩] := by
        simp [persistStage, h, (writeSummary_state _ _ _ _).1,
              log_security_event_on, hdb, hlog, h4]
      rw [hout, stageLogCount_append]
      cases s <;> simp [stageLogCount, stageEventTypes]

/-- Audit accounting of predictionStage: one prediction entry always, plus
one persistence entry exactly when persistence was attempted. -/
theorem predictionStage_logs (cfg : Config) (orc : Oracles) (d : DataMap)
    (db2 : DB) (mse : Rat) (x : List Rat)
    (hdb : orc.dbAvail = true) (hlog : orc.logInsertOk = true) (s : Stage) :
    stageLogCount (predictionStage cfg orc d db2 mse x).db.securityLogs s =
      stageLogCount db2.securityLogs s +
        (if s = Stage.prediction then 1 else 0) +
        (if s = Stage.persistence ∧
            (predictionStage cfg orc d db2 mse x).attempts =
              [Stage.poisoning, Stage.extraction, Stage.prediction, Stage.persistence]
         then 1 else 0) := by
  by_cases hm : cfg.modelHasProba = true
  · cases hp : orc.modelProba (applyScaler cfg.predScaler x) with
    | error e =>
        have hout : predictionStage cfg orc d db2 mse x =
            ⟨errResp 500 "Prediction failed",
             log_security_event orc db2 "prediction_error" 0 false,
             [Stage.poisoning, Stage.extraction, Stage.prediction]⟩ := by
          simp [predictionStage, hm, hp]
        rw [hout]
        simp only [log_security_event_on orc db2 _ _ _ hdb hlog]
        rw [stageLogCount_append]
        cases s <;> simp [stageLogCount, stageEventTypes]
    | ok p =>
        have hout : predictionStage cfg orc d db2 mse x =
            persistStage orc d
              (log_security_event orc db2 "prediction_success" mse false)
              (if mkRat 1 2 ≤ p then 1 else 0) := by
          simp [predictionStage, hm, hp]
        rw [hout, persistStage_logs _ _ _ _ hdb hlog,
            log_security_event_on orc db2 _ _ _ hdb hlog, stageLogCount_append,
            persistStage_attempts]
        cases s <;> simp [stageLogCount, stageEventTypes]
  · cases hp : orc.modelPredict (applyScaler cfg.predScaler x) with
    | error e =>
        have hout : predictionStage cfg orc d db2 mse x =
            ⟨errResp 500 "Prediction failed",
             log_security_event orc db2 "prediction_error" 0 false,
             [Stage.poisoning, Stage.extraction, Stage.prediction]⟩ := by
          simp [predictionStage, hm, hp]
        rw [hout]
        simp only [log_security_event_on orc db2 _ _ _ hdb hlog]
        rw [stageLogCount_append]
        cases s <;> simp [stageLogCount, stageEventTypes]
    | ok pred =>
        have hout : predictionStage cfg orc d db2 mse x =
            persistStage orc d
              (log_security_event orc db2 "prediction_success" mse false) pred := by
          simp [predictionStage, hm, hp]
        rw [hout, persistStage_logs _ _ _ _ hdb hlog,
            log_security_event_on orc db2 _ _ _ hdb hlog, stageLogCount_append,
            persistStage_attempts]
        cases s <;> simp [stageLogCount, stageEventTypes]

/-- C8: for any submission, however it terminates, when the audit sink is
functioning (store available and inserts succeeding — log failures are
swallowed in the source, so audit completeness can only hold of a working
sink) the number of security_logs entries belonging to each stage grows by
exactly one for every stage actually attempted and by zero for every stage
not attempted. -/
theorem c8_one_audit_entry_per_attempted_stage (cfg : Config) (orc : Oracles)
    (data : Option DataMap) (db : DB)
    (hdb : orc.dbAvail = true) (hlog : orc.logInsertOk = true) (s : Stage) :
    stageLogCount (create_patient cfg orc data db).db.securityLogs s =
      stageLogCount db.securityLogs s +
        (if s ∈ (create_patient cfg orc data db).attempts then 1 else 0) := by
  rcases data with _ | d
  · simp [create_patient]
  · by_cases hmf : missingFields d = []
    case neg =>
      simp [create_patient, hmf]
    case pos =>
      rcases hpc : run_poisoning_check cfg orc d with e | flag
      · have hout : create_patient cfg orc (some d) db =
            ⟨errResp 500 ("Poisoning check failed: " ++ e),
             log_security_event orc db "poisoning_check_error" 0 true,
             [Stage.poisoning]⟩ := by
          simp [create_patient, hmf, hpc]
        rw [hout]
        simp only [log_security_event_on orc db _ _ _ hdb hlog]
        rw [stageLogCount_append]
        cases s <;> simp [stageLogCount, stageEventTypes]
      · cases flag with
        | true =>
            have hout : (create_patient cfg orc (some d) db).db =
                log_security_event orc db "poisoning_check" 0 true ∧
                (create_patient cfg orc (some d) db).attempts = [Stage.poisoning] := by
              refine ⟨?_, ?_⟩ <;> simp [create_patient, hmf, hpc]
            rw [hout.1, hout.2, log_security_event_on orc db _ _ _ hdb hlog,
                stageLogCount_append]
            cases s <;> simp [stageLogCount, stageEventTypes]
        | false =>
            rcases hbx : buildExtractionInput cfg d with e | x
            · have hout : create_patient cfg orc (some d) db =
                  ⟨errResp 500 "Internal server error",
                   log_security_event orc
                     (log_security_event orc db "poisoning_check" 0 false)
                     "system_error" 0 false,
                   [Stage.poisoning]⟩ := by
                simp [create_patient, hmf, hpc, hbx]
              rw [hout]
              simp only [log_security_event_on orc _ _ _ _ hdb hlog,
                log_security_event_on orc db _ _ _ hdb hlog]
              rw [List.append_assoc, stageLogCount_append]
              cases s <;> simp [stageLogCount, stageEventTypes]
            · rcases hda : orc.detectAttack x with e | pr
              · have hout : create_patient cfg orc (some d) db =
                    ⟨errResp 500 "Extraction check failed",
                     log_security_event orc
                       (log_security_event orc db "poisoning_check" 0 false)
                       "extraction_check_error" 0 true,
                     [Stage.poisoning, Stage.extraction]⟩ := by
                  simp [create_patient, hmf, hpc, hbx, hda]
                rw [hout]
                simp only [log_security_event_on orc _ _ _ _ hdb hlog,
                  log_security_event_on orc db _ _ _ hdb hlog]
                rw [List.append_assoc, stageLogCount_append]
                cases s <;> simp [stageLogCount, stageEventTypes]
              · rcases pr with ⟨isAtk, mse⟩
                cases isAtk with
                | true =>
                    have hout : (create_patient cfg orc (some d) db).db =
                        log_security_event orc
                          (log_security_event orc db "poisoning_check" 0 false)
                          "extraction_check" mse true ∧
                        (create_patient cfg orc (some d) db).attempts =
                          [Stage.poisoning, Stage.extraction] := by
                      refine ⟨?_, ?_⟩ <;> simp [create_patient, hmf, hpc, hbx, hda]
                    rw [hout.1, hout.2]
                    simp only [log_security_event_on orc _ _ _ _ hdb hlog,
                      log_security_event_on orc db _ _ _ hdb hlog]
                    rw [List.append_assoc, stageLogCount_append]
                    cases s <;> simp [stageLogCount, stageEventTypes]
                | false =>
                    have hout : create_patient cfg orc (some d) db =
                        predictionStage cfg orc d
                          (log_security_event orc
                            (log_security_event orc db "poisoning_check" 0 false)
                            "extraction_check" mse false) mse x := by
                      simp [create_patient, hmf, hpc, hbx, hda]
                    rw [hout, predictionStage_logs _ _ _ _ _ _ hdb hlog]
                    rcases predictionStage_attempts cfg orc d
                        (log_security_event orc
                          (log_security_event orc db "poisoning_check" 0 false)
                          "extraction_check" mse false) mse x with hA | hA <;>
                      rw [hA] <;>
                      simp only [log_security_event_on orc _ _ _ _ hdb hlog,
                        log_security_event_on orc db _ _ _ hdb hlog] <;>
                      cases s <;>
                      simp [stageLogCount_append, stageLogCount, stageEventTypes]

/-- Witness for C8: a fully successful concrete run appends exactly one
entry for each of the four stages. -/
theorem c8_witness :
    orcW.dbAvail = true ∧ orcW.logInsertOk = true ∧
    stageLogCount (create_patient cfgW orcW (some dW) db0).db.securityLogs
        Stage.poisoning =
      stageLogCount db0.securityLogs Stage.poisoning +
        (if Stage.poisoning ∈ (create_patient cfgW orcW (some dW) db0).attempts
         then 1 else 0) :=
  ⟨rfl, rfl, c8_one_audit_entry_per_attempted_stage cfgW orcW (some dW) db0 rfl rfl
    Stage.poisoning⟩

/-! ## Success-path shape lemmas -/

/-- The document a successful update_patient_record upserts. -/
theorem update_patient_record_success (orc : Oracles) (record : PatientRecord)
    (db : DB) (cn cm ca : Nat)
    (hctx : orc.loadCtx = .ok ())
    (h1 : encrypt_vector orc (.vstr (pyStr record.nic)) = some cn)
    (h2 : encrypt_vector orc record.name = some cm)
    (h3 : encrypt_vector orc record.address = some ca) :
    update_patient_record orc record db =
      .ok ⟨upsertByNicHash db.patients
             ⟨hash_text (pyStr record.nic), cn, cm, ca, record.gender, record.age,
              record.hypertension, record.heartDisease, record.bmi,
              record.hba1cLevel, record.bloodGlucoseLevel, record.diabetes⟩,
           db.patientsPlain, db.securityLogs⟩ := by
  simp only [update_patient_record, hctx, h1, h2, h3]

/-- When any identity field fails to encrypt, update_patient_record writes
nothing and returns NORMALLY (no exception): the caller cannot tell the
record was not saved. -/
theorem update_patient_record_encfail (orc : Oracles) (record : PatientRecord)
    (db : DB) (hctx : orc.loadCtx = .ok ())
    (hfail : encrypt_vector orc (.vstr (pyStr record.nic)) = none ∨
             encrypt_vector orc record.name = none ∨
             encrypt_vector orc record.address = none) :
    update_patient_record orc record db = .ok db := by
  simp only [update_patient_record, hctx]
  rcases h1 : encrypt_vector orc (.vstr (pyStr record.nic)) with _ | cn <;>
  rcases h2 : encrypt_vector orc record.name with _ | cm <;>
  rcases h3 : encrypt_vector orc record.address with _ | ca <;>
    simp only [h1, h2, h3] <;> try rfl
  rcases hfail with h | h | h <;> simp_all

/-- The upserting run always keeps the upserted document in the store. -/
theorem mem_upsertByNicHash (l : List PatientDoc) (doc : PatientDoc) :
    doc ∈ upsertByNicHash l doc := by
  induction l with
  | nil => simp [upsertByNicHash]
  | cons p ps ih =>
      unfold upsertByNicHash
      split
      · exact List.mem_cons_self _ _
      · exact List.mem_cons_of_mem _ ih

/-- With validation passed and both gates green, create_patient is exactly
persistStage on the thrice-logged store, with the ≥ 0.5 cut applied to the
model probability of the scaled vector. -/
theorem create_patient_success_shape (cfg : Config) (orc : Oracles) (d : DataMap)
    (db : DB) (x : List Rat) (mse p : Rat)
    (hmf : missingFields d = [])
    (hpc : run_poisoning_check cfg orc d = .ok false)
    (hbx : buildExtractionInput cfg d = .ok x)
    (hda : orc.detectAttack x = .ok (false, mse))
    (hm : cfg.modelHasProba = true)
    (hp : orc.modelProba (applyScaler cfg.predScaler x) = .ok p) :
    create_patient cfg orc (some d) db =
      persistStage orc d
        (log_security_event orc
          (log_security_event orc
            (log_security_event orc db "poisoning_check" 0 false)
            "extraction_check" mse false)
          "prediction_success" mse false)
        (if mkRat 1 2 ≤ p then 1 else 0) := by
  simp [create_patient, predictionStage, hmf, hpc, hbx, hda, hm, hp]

/-- persistStage on a successful upsert: the 201 response and the stores it
leaves behind. -/
theorem persistStage_success_shape (orc : Oracles) (d : DataMap) (db3 : DB)
    (pred : Int) (cn cm ca : Nat)
    (hctx : orc.loadCtx = .ok ())
    (h1 : encrypt_vector orc (.vstr (pyStr (buildRecord d pred).nic)) = some cn)
    (h2 : encrypt_vector orc (buildRecord d pred).name = some cm)
    (h3 : encrypt_vector orc (buildRecord d pred).address = some ca) :
    persistStage orc d db3 pred =
      ⟨⟨201, true, none, none, none,
        some (if pred == 1 then "Diabetic" else "Non-Diabetic"),
        some "Record saved successfully"⟩,
       writeSummary orc
         (log_security_event orc
           ⟨upsertByNicHash db3.patients
              ⟨hash_text (pyStr (buildRecord d pred).nic), cn, cm, ca,
               (buildRecord d pred).gender, (buildRecord d pred).age,
               (buildRecord d pred).hypertension, (buildRecord d pred).heartDisease,
               (buildRecord d pred).bmi, (buildRecord d pred).hba1cLevel,
               (buildRecord d pred).bloodGlucoseLevel, (buildRecord d pred).diabetes⟩,
            db3.patientsPlain, db3.securityLogs⟩
           "record_created" 0 false)
         (buildRecord d pred) pred,
       [Stage.poisoning, Stage.extraction, Stage.prediction, Stage.persistence]⟩ := by
  simp [persistStage,
    update_patient_record_success orc (buildRecord d pred) db3 cn cm ca hctx h1 h2 h3]

/-- C9: on a validated input that passed both gates, the feature vector is
scaled with the stored scaler (the model-probability hypothesis is about
applyScaler cfg.predScaler x), the response is 201 reporting "Diabetic"
exactly when the positive-class probability is at least 0.5, and the stored
record carries predicted_label 1 exactly in that case. -/
theorem c9_prediction_threshold (cfg : Config) (orc : Oracles) (d : DataMap)
    (db : DB) (x : List Rat) (mse p : Rat) (cn cm ca : Nat)
    (hmf : missingFields d = [])
    (hpc : run_poisoning_check cfg orc d = .ok false)
    (hbx : buildExtractionInput cfg d = .ok x)
    (hda : orc.detectAttack x = .ok (false, mse))
    (hm : cfg.modelHasProba = true)
    (hp : orc.modelProba (applyScaler cfg.predScaler x) = .ok p)
    (hctx : orc.loadCtx = .ok ())
    (h1 : encrypt_vector orc
      (.vstr (pyStr (buildRecord d (if mkRat 1 2 ≤ p then 1 else 0)).nic)) = some cn)
    (h2 : encrypt_vector orc (buildRecord d (if mkRat 1 2 ≤ p then 1 else 0)).name = some cm)
    (h3 : encrypt_vector orc (buildRecord d (if mkRat 1 2 ≤ p then 1 else 0)).address = some ca) :
    (create_patient cfg orc (some d) db).resp.status = 201 ∧
    (create_patient cfg orc (some d) db).resp.prediction =
      some (if mkRat 1 2 ≤ p then "Diabetic" else "Non-Diabetic") ∧
    ∃ doc ∈ (create_patient cfg orc (some d) db).db.patients,
      doc.nicHashed = hash_text (pyStr ((dget d "NIC").getD .vnull)) ∧
      doc.diabetes = (if mkRat 1 2 ≤ p then 1 else 0) := by
  rw [create_patient_success_shape cfg orc d db x mse p hmf hpc hbx hda hm hp,
      persistStage_success_shape orc d _ _ cn cm ca hctx h1 h2 h3]
  refine ⟨rfl, ?_, ?_⟩
  · by_cases hle : mkRat 1 2 ≤ p <;> simp [hle]
  · rw [(writeSummary_state _ _ _ _).2]
    rw [(log_security_event_collections _ _ _ _ _).1]
    exact ⟨_, mem_upsertByNicHash _ _, rfl, rfl⟩

/-- The plaintext slot encrypt_vector hands to the BFV call. -/
def slotOf (v : PyVal) : Nat := hexToNat (hash_text (pyStr v)) % 65537

/-- The coerced extraction vector of dW under cfgW. -/
def xW : List Rat :=
  [((1 : Int) : Rat), ((45 : Int) : Rat), ((0 : Int) : Rat), ((0 : Int) : Rat),
   ((27 : Int) : Rat), ((6 : Int) : Rat), ((140 : Int) : Rat)]

/-- Witness for C9: the spec scenario — both gates pass and the model
probability is 0.73 — applied at the concrete fixtures: the response is 201
"Diabetic" and the stored document carries predicted_label 1. -/
theorem c9_witness :
    buildExtractionInput cfgW dW = .ok xW ∧
    orcW.modelProba (applyScaler cfgW.predScaler xW) = .ok (mkRat 73 100) ∧
    ((create_patient cfgW orcW (some dW) db0).resp.status = 201 ∧
     (create_patient cfgW orcW (some dW) db0).resp.prediction =
       some (if mkRat 1 2 ≤ mkRat 73 100 then "Diabetic" else "Non-Diabetic") ∧
     ∃ doc ∈ (create_patient cfgW orcW (some dW) db0).db.patients,
       doc.nicHashed = hash_text (pyStr ((dget dW "NIC").getD .vnull)) ∧
       doc.diabetes = (if mkRat 1 2 ≤ mkRat 73 100 then 1 else 0)) :=
  ⟨rfl, rfl,
   c9_prediction_threshold cfgW orcW dW db0 xW (mkRat 3 100) (mkRat 73 100)
     (slotOf (.vstr (pyStr (buildRecord dW (if mkRat 1 2 ≤ mkRat 73 100 then 1 else 0)).nic)))
     (slotOf (buildRecord dW (if mkRat 1 2 ≤ mkRat 73 100 then 1 else 0)).name)
     (slotOf (buildRecord dW (if mkRat 1 2 ≤ mkRat 73 100 then 1 else 0)).address)
     rfl rfl rfl rfl rfl rfl rfl rfl rfl rfl⟩

/-- log_security_event leaves the encrypted patient collection unchanged. -/
theorem log_patients (orc : Oracles) (db : DB) (t : String) (m : Rat) (b : Bool) :
    (log_security_event orc db t m b).patients = db.patients :=
  (log_security_event_collections orc db t m b).1

/-- log_security_event leaves the plaintext summary collection unchanged. -/
theorem log_plain (orc : Oracles) (db : DB) (t : String) (m : Rat) (b : Bool) :
    (log_security_event orc db t m b).patientsPlain = db.patientsPlain :=
  (log_security_event_collections orc db t m b).2

/-- writeSummary leaves the encrypted patient collection unchanged. -/
theorem writeSummary_patients (orc : Oracles) (db : DB) (record : PatientRecord)
    (pred : Int) : (writeSummary orc db record pred).patients = db.patients :=
  (writeSummary_state orc db record pred).2

/-- C2 amended: if encrypting any identity field fails, the encrypted
patient record is indeed not written (no partial record) — but
update_patient_record swallows the failure and returns normally, so the
endpoint still answers 201 and still writes the plaintext summary: the
record-half of the claim holds, the no-summary-without-record half does
not. -/
theorem c2_encfail_no_record_but_summary :
    (∀ (orc : Oracles) (record : PatientRecord) (db : DB),
      orc.loadCtx = .ok () →
      (encrypt_vector orc (.vstr (pyStr record.nic)) = none ∨
       encrypt_vector orc record.name = none ∨
       encrypt_vector orc record.address = none) →
      update_patient_record orc record db = .ok db) ∧
    (∀ (cfg : Config) (orc : Oracles) (d : DataMap) (db : DB) (x : List Rat) (mse p : Rat),
      missingFields d = [] →
      run_poisoning_check cfg orc d = .ok false →
      buildExtractionInput cfg d = .ok x →
      orc.detectAttack x = .ok (false, mse) →
      cfg.modelHasProba = true →
      orc.modelProba (applyScaler cfg.predScaler x) = .ok p →
      orc.loadCtx = .ok () →
      (encrypt_vector orc
          (.vstr (pyStr (buildRecord d (if mkRat 1 2 ≤ p then 1 else 0)).nic)) = none ∨
       encrypt_vector orc (buildRecord d (if mkRat 1 2 ≤ p then 1 else 0)).name = none ∨
       encrypt_vector orc (buildRecord d (if mkRat 1 2 ≤ p then 1 else 0)).address = none) →
      orc.dbAvail = true → orc.summaryInsertOk = true →
      (create_patient cfg orc (some d) db).db.patients = db.patients ∧
      (create_patient cfg orc (some d) db).db.patientsPlain.length =
        db.patientsPlain.length + 1 ∧
      (create_patient cfg orc (some d) db).resp.status = 201) := by
  constructor
  · exact fun orc record db hctx hfail =>
      update_patient_record_encfail orc record db hctx hfail
  · intro cfg orc d db x mse p hmf hpc hbx hda hm hp hctx hfail hdb hsum
    rw [create_patient_success_shape cfg orc d db x mse p hmf hpc hbx hda hm hp]
    have hupd := update_patient_record_encfail orc
      (buildRecord d (if mkRat 1 2 ≤ p then 1 else 0))
      (log_security_event orc
        (log_security_event orc
          (log_security_event orc db "poisoning_check" 0 false)
          "extraction_check" mse false)
        "prediction_success" mse false) hctx hfail
    simp only [persistStage, hupd]
    refine ⟨?_, ?_, ?_⟩
    · simp [writeSummary_patients, log_patients]
    · simp [writeSummary, hdb, hsum, log_plain]
    · trivial

/-- Witness for C2 (amended): at the concrete fixtures with every BFV call
failing, no record is stored, yet the summary count grows and the call
reports success. -/
theorem c2_witness :
    orcEncFail.loadCtx = .ok () ∧
    encrypt_vector orcEncFail
      (.vstr (pyStr (buildRecord dW (if mkRat 1 2 ≤ mkRat 73 100 then 1 else 0)).nic)) = none ∧
    ((create_patient cfgW orcEncFail (some dW) db0).db.patients = db0.patients ∧
     (create_patient cfgW orcEncFail (some dW) db0).db.patientsPlain.length =
       db0.patientsPlain.length + 1 ∧
     (create_patient cfgW orcEncFail (some dW) db0).resp.status = 201) :=
  ⟨rfl, rfl,
   c2_encfail_no_record_but_summary.2 cfgW orcEncFail dW db0 xW (mkRat 3 100) (mkRat 73 100)
     rfl rfl rfl rfl rfl rfl rfl (Or.inl rfl) rfl rfl⟩

/-- C3 amended: a missing (or blank, or absent-body) required field still
yields 400 before any gate with the store untouched; but a PRESENT
non-coercible medical feature is not a validation failure: the poisoning
gate runs first, and the coercion error then surfaces from the outer
handler as a generic HTTP 500 internal error, never as a 400. -/
theorem c3_validation_and_coercion :
    (∀ (cfg : Config) (orc : Oracles) (db : DB),
      (create_patient cfg orc none db).resp.status = 400 ∧
      (create_patient cfg orc none db).attempts = [] ∧
      (create_patient cfg orc none db).db = db) ∧
    (∀ (cfg : Config) (orc : Oracles) (d : DataMap) (db : DB),
      missingFields d ≠ [] →
      (create_patient cfg orc (some d) db).resp.status = 400 ∧
      (create_patient cfg orc (some d) db).attempts = [] ∧
      (create_patient cfg orc (some d) db).db = db) ∧
    (∀ (cfg : Config) (orc : Oracles) (d : DataMap) (db : DB) (e : String),
      missingFields d = [] →
      run_poisoning_check cfg orc d = .ok false →
      buildExtractionInput cfg d = .error e →
      (create_patient cfg orc (some d) db).resp.status = 500 ∧
      (create_patient cfg orc (some d) db).resp.error = some "Internal server error" ∧
      (create_patient cfg orc (some d) db).attempts = [Stage.poisoning]) := by
  refine ⟨fun cfg orc db => ⟨rfl, rfl, rfl⟩, ?_, ?_⟩
  · intro cfg orc d db hmf
    refine ⟨?_, ?_, ?_⟩ <;> simp [create_patient, errResp, hmf]
  · intro cfg orc d db e hmf hpc hbx
    refine ⟨?_, ?_, ?_⟩ <;> simp [create_patient, errResp, hmf, hpc, hbx]

/-- Witness for C3 (amended): the concrete bmi = "abc" submission passes
validation, the poisoning gate runs, and the result is the generic 500. -/
theorem c3_witness :
    missingFields dBadBmi = [] ∧
    buildExtractionInput cfgW dBadBmi = .error "Invalid value for bmi" ∧
    ((create_patient cfgW orcW (some dBadBmi) db0).resp.status = 500 ∧
     (create_patient cfgW orcW (some dBadBmi) db0).resp.error =
       some "Internal server error" ∧
     (create_patient cfgW orcW (some dBadBmi) db0).attempts = [Stage.poisoning]) :=
  ⟨by decide, rfl,
   c3_validation_and_coercion.2.2 cfgW orcW dBadBmi db0 "Invalid value for bmi"
     (by decide) rfl rfl⟩

/-- C4 amended: submitting the same identifier twice keeps exactly one
encrypted patient document — the record side really is upserted by
NIC_Hashed — but the plaintext summary is inserted with insert_one on every
submission, so its document count grows to 2, not 1. -/
theorem c4_upsert_record_but_summary_duplicates (cfg : Config) (orc : Oracles)
    (d : DataMap) (db : DB) (x : List Rat) (mse p : Rat) (cn cm ca : Nat)
    (hmf : missingFields d = [])
    (hpc : run_poisoning_check cfg orc d = .ok false)
    (hbx : buildExtractionInput cfg d = .ok x)
    (hda : orc.detectAttack x = .ok (false, mse))
    (hm : cfg.modelHasProba = true)
    (hp : orc.modelProba (applyScaler cfg.predScaler x) = .ok p)
    (hctx : orc.loadCtx = .ok ())
    (h1 : encrypt_vector orc
      (.vstr (pyStr (buildRecord d (if mkRat 1 2 ≤ p then 1 else 0)).nic)) = some cn)
    (h2 : encrypt_vector orc (buildRecord d (if mkRat 1 2 ≤ p then 1 else 0)).name = some cm)
    (h3 : encrypt_vector orc (buildRecord d (if mkRat 1 2 ≤ p then 1 else 0)).address = some ca)
    (hdb : orc.dbAvail = true) (hsum : orc.summaryInsertOk = true)
    (hempty : db.patients = []) :
    (create_patient cfg orc (some d)
        (create_patient cfg orc (some d) db).db).db.patients.length = 1 ∧
    (create_patient cfg orc (some d)
        (create_patient cfg orc (some d) db).db).db.patientsPlain.length =
      db.patientsPlain.length + 2 := by
  rw [create_patient_success_shape cfg orc d db x mse p hmf hpc hbx hda hm hp,
      persistStage_success_shape orc d _ _ cn cm ca hctx h1 h2 h3]
  rw [create_patient_success_shape cfg orc d _ x mse p hmf hpc hbx hda hm hp,
      persistStage_success_shape orc d _ _ cn cm ca hctx h1 h2 h3]
  constructor
  · simp [writeSummary_patients, log_patients, hempty, upsertByNicHash]
  · simp [writeSummary, hdb, hsum, log_plain]

/-- Witness for C4 (amended): the concrete double submission of dW from the
empty store leaves one encrypted record and two summaries. -/
theorem c4_witness :
    db0.patients = [] ∧
    ((create_patient cfgW orcW (some dW)
        (create_patient cfgW orcW (some dW) db0).db).db.patients.length = 1 ∧
     (create_patient cfgW orcW (some dW)
        (create_patient cfgW orcW (some dW) db0).db).db.patientsPlain.length =
       db0.patientsPlain.length + 2) :=
  ⟨rfl,
   c4_upsert_record_but_summary_duplicates cfgW orcW dW db0 xW (mkRat 3 100) (mkRat 73 100)
     (slotOf (.vstr (pyStr (buildRecord dW (if mkRat 1 2 ≤ mkRat 73 100 then 1 else 0)).nic)))
     (slotOf (buildRecord dW (if mkRat 1 2 ≤ mkRat 73 100 then 1 else 0)).name)
     (slotOf (buildRecord dW (if mkRat 1 2 ≤ mkRat 73 100 then 1 else 0)).address)
     rfl rfl rfl rfl rfl rfl rfl rfl rfl rfl rfl rfl rfl⟩

/-- C5 amended: an internal exception in either gate is caught at the stage
boundary, audited with the conservative is_attack = true entry, and
answered with HTTP 500; the extraction-stage body is the generic
"Extraction check failed", but the poisoning-stage body embeds the
exception text ("Poisoning check failed: ..."), so the no-internal-detail
half of the claim holds only for the extraction gate. -/
theorem c5_gate_error_handling :
    (∀ (cfg : Config) (orc : Oracles) (d : DataMap) (db : DB) (e : String),
      missingFields d = [] →
      run_poisoning_check cfg orc d = .error e →
      orc.dbAvail = true → orc.logInsertOk = true →
      (create_patient cfg orc (some d) db).resp.status = 500 ∧
      (create_patient cfg orc (some d) db).resp.error =
        some ("Poisoning check failed: " ++ e) ∧
      (create_patient cfg orc (some d) db).db.securityLogs =
        db.securityLogs ++ [⟨"poisoning_check_error", 0, true⟩] ∧
      (create_patient cfg orc (some d) db).attempts = [Stage.poisoning]) ∧
    (∀ (cfg : Config) (orc : Oracles) (d : DataMap) (db : DB) (x : List Rat) (m : String),
      missingFields d = [] →
      run_poisoning_check cfg orc d = .ok false →
      buildExtractionInput cfg d = .ok x →
      orc.detectAttack x = .error m →
      orc.dbAvail = true → orc.logInsertOk = true →
      (create_patient cfg orc (some d) db).resp.status = 500 ∧
      (create_patient cfg orc (some d) db).resp.error = some "Extraction check failed" ∧
      (create_patient cfg orc (some d) db).db.securityLogs =
        db.securityLogs ++ [⟨"poisoning_check", 0, false⟩,
                            ⟨"extraction_check_error", 0, true⟩] ∧
      (create_patient cfg orc (some d) db).attempts =
        [Stage.poisoning, Stage.extraction]) := by
  constructor
  · intro cfg orc d db e hmf hpc hdb hlog
    refine ⟨?_, ?_, ?_, ?_⟩ <;>
      simp [create_patient, errResp, hmf, hpc, log_security_event_on, hdb, hlog]
  · intro cfg orc d db x m hmf hpc hbx hda hdb hlog
    refine ⟨?_, ?_, ?_, ?_⟩ <;>
      simp [create_patient, errResp, hmf, hpc, hbx, hda, log_security_event_on, hdb, hlog]

/-- Witness for C5 (amended): the concrete poisoning-stage exception "boom"
is audited as is_attack = true and surfaces with the detail in the body. -/
theorem c5_witness :
    run_poisoning_check cfgW orcPoisonErr dW = .error "Poisoning check failed: boom" ∧
    ((create_patient cfgW orcPoisonErr (some dW) db0).resp.status = 500 ∧
     (create_patient cfgW orcPoisonErr (some dW) db0).resp.error =
       some ("Poisoning check failed: " ++ "Poisoning check failed: boom") ∧
     (create_patient cfgW orcPoisonErr (some dW) db0).db.securityLogs =
       db0.securityLogs ++ [⟨"poisoning_check_error", 0, true⟩] ∧
     (create_patient cfgW orcPoisonErr (some dW) db0).attempts = [Stage.poisoning]) :=
  ⟨rfl,
   c5_gate_error_handling.1 cfgW orcPoisonErr dW db0 "Poisoning check failed: boom"
     (by decide) rfl rfl rfl⟩

/-- C10 amended: for a successful submission whose NIC is Python-truthy
(any non-empty string in particular), the summary's NIC_Hashed key and the
encrypted record's NIC_Hashed key coincide: both are the SHA-256 hex digest
of str(NIC), computed by the endpoint's inline hashlib call and by the
codec's hash_text respectively. For a falsy-but-present NIC the summary key
degrades to None (see the counterexample). -/
theorem c10_summary_key_matches_record_key (cfg : Config) (orc : Oracles)
    (d : DataMap) (db : DB) (x : List Rat) (mse p : Rat) (cn cm ca : Nat)
    (hmf : missingFields d = [])
    (hpc : run_poisoning_check cfg orc d = .ok false)
    (hbx : buildExtractionInput cfg d = .ok x)
    (hda : orc.detectAttack x = .ok (false, mse))
    (hm : cfg.modelHasProba = true)
    (hp : orc.modelProba (applyScaler cfg.predScaler x) = .ok p)
    (hctx : orc.loadCtx = .ok ())
    (h1 : encrypt_vector orc
      (.vstr (pyStr (buildRecord d (if mkRat 1 2 ≤ p then 1 else 0)).nic)) = some cn)
    (h2 : encrypt_vector orc (buildRecord d (if mkRat 1 2 ≤ p then 1 else 0)).name = some cm)
    (h3 : encrypt_vector orc (buildRecord d (if mkRat 1 2 ≤ p then 1 else 0)).address = some ca)
    (htr : pyTruthy ((dget d "NIC").getD .vnull) = true)
    (hdb : orc.dbAvail = true) (hsum : orc.summaryInsertOk = true) :
    (create_patient cfg orc (some d) db).db.patientsPlain.map SummaryDoc.nicHashed =
      db.patientsPlain.map SummaryDoc.nicHashed ++
        [some (hash_text (pyStr ((dget d "NIC").getD .vnull)))] ∧
    ∃ doc ∈ (create_patient cfg orc (some d) db).db.patients,
      doc.nicHashed = hash_text (pyStr ((dget d "NIC").getD .vnull)) := by
  rw [create_patient_success_shape cfg orc d db x mse p hmf hpc hbx hda hm hp,
      persistStage_success_shape orc d _ _ cn cm ca hctx h1 h2 h3]
  constructor
  · simp [writeSummary, hdb, hsum, log_plain, buildRecord, htr, hash_text]
  · rw [(writeSummary_state _ _ _ _).2,
        (log_security_event_collections _ _ _ _ _).1]
    exact ⟨_, mem_upsertByNicHash _ _, rfl⟩

/-- Witness for C10 (amended): at the concrete fixtures with the truthy NIC
"199012345V" the appended summary key equals the stored record key. -/
theorem c10_witness :
    pyTruthy ((dget dW "NIC").getD .vnull) = true ∧
    ((create_patient cfgW orcW (some dW) db0).db.patientsPlain.map SummaryDoc.nicHashed =
       db0.patientsPlain.map SummaryDoc.nicHashed ++
         [some (hash_text (pyStr ((dget dW "NIC").getD .vnull)))] ∧
     ∃ doc ∈ (create_patient cfgW orcW (some dW) db0).db.patients,
       doc.nicHashed = hash_text (pyStr ((dget dW "NIC").getD .vnull))) :=
  ⟨rfl,
   c10_summary_key_matches_record_key cfgW orcW dW db0 xW (mkRat 3 100) (mkRat 73 100)
     (slotOf (.vstr (pyStr (buildRecord dW (if mkRat 1 2 ≤ mkRat 73 100 then 1 else 0)).nic)))
     (slotOf (buildRecord dW (if mkRat 1 2 ≤ mkRat 73 100 then 1 else 0)).name)
     (slotOf (buildRecord dW (if mkRat 1 2 ≤ mkRat 73 100 then 1 else 0)).address)
     rfl rfl rfl rfl rfl rfl rfl rfl rfl rfl rfl rfl rfl⟩

end DiabetesHE
